import Mathlib

/-!
Shallow embedding of `src/touch_button.py` (TouchButton library for
CircuitPython).

Modelling choices:
* Python numbers: ints are `ℤ`; Python float arithmetic is modelled as exact
  rational arithmetic over `ℚ` (the source performs `0.3 * raw + 0.7 * s`
  etc. in IEEE doubles; all claims here are about the algebraic structure of
  these expressions, which the rational model renders exactly).
* Python `int(x)` on a float truncates toward zero: `pyInt`.
* Instance attributes of class `TouchButton` become fields of
  `TouchButtonState`.  The callback dict `_callbacks` has the four fixed keys
  `"clk"`, `"dclk"`, `"lpr"`, `"lprhld"`; it is represented by four `Option`
  fields plus a lookup function on names.
* A user callback either returns or raises; it is modelled as
  `Unit → Except String Unit`.
* `time.monotonic()` readings and the results of `is_touching()` observed by
  the polling loops are supplied as explicit traces.
* A raised Python exception is an `Option String` / `Except String` error
  value.
-/

namespace TouchButton

/-- Python `int()` applied to a float: truncation toward zero. -/
def pyInt (q : ℚ) : ℤ :=
  if 0 ≤ q then ⌊q⌋ else ⌈q⌉

/-- A user callback: invoked with no arguments, it either returns normally
(`Except.ok`) or raises an exception carrying a message (`Except.error`). -/
def Callback : Type := Unit → Except String Unit

/-- The instance state of class `TouchButton` (`__init__`, lines 24-42):
every `self._*` attribute, with floats as exact rationals. -/
structure TouchButtonState where
  smoothed : ℚ                      -- self._smoothed_raw_value (int in Python)
  ema_alpha : ℚ                     -- self._ema_alpha
  baseline : ℚ                      -- self._baseline
  baseline_approx_factor : ℚ        -- self._baseline_approx_factor
  touch_threshold : ℤ               -- self._touch_threshold
  double_click_delay : ℚ            -- self._double_click_delay
  long_press_timeout : ℚ            -- self._long_press_timeout
  long_press_hold_interval : ℚ      -- self._long_press_hold_interval
  long_touch_baseline_timeout : ℚ   -- self._long_touch_baseline_timeout
  cb_clk : Option Callback          -- self._callbacks["clk"]
  cb_dclk : Option Callback         -- self._callbacks["dclk"]
  cb_lpr : Option Callback          -- self._callbacks["lpr"]
  cb_lprhld : Option Callback       -- self._callbacks["lprhld"]
  enable_double_click : Bool        -- self._enable_double_click
  dbg : Bool                        -- self._dbg

/-- Class constants (lines 19-22). -/
def POLL_INTERVAL : ℚ := 1/100
def TOUCH_CHECK_INTERVAL : ℚ := 1/20
def CALIBRATION_SAMPLES : ℕ := 5
def CALIBRATION_DELAY : ℚ := 1/20

/-- Defaults of `__init__` (lines 26-42). -/
def initState : TouchButtonState where
  smoothed := 0
  ema_alpha := 3/10
  baseline := 0
  baseline_approx_factor := 5/10000
  touch_threshold := 500
  double_click_delay := 3/10
  long_press_timeout := 1
  long_press_hold_interval := 1/20
  long_touch_baseline_timeout := 10
  cb_clk := none
  cb_dclk := none
  cb_lpr := none
  cb_lprhld := none
  enable_double_click := true
  dbg := false

/-- The keys of the `_callbacks` dict, in insertion order (lines 35-40). -/
def callbackKeys : List String := ["clk", "dclk", "lpr", "lprhld"]

/-- Dict lookup `self._callbacks.get(event_name)`: `none` off the keys. -/
def lookupCallback (s : TouchButtonState) (event_name : String) :
    Option Callback :=
  if event_name = "clk" then s.cb_clk
  else if event_name = "dclk" then s.cb_dclk
  else if event_name = "lpr" then s.cb_lpr
  else if event_name = "lprhld" then s.cb_lprhld
  else none

/-- Method `register_callback` (lines 53-57): assigns into the dict when the key
exists, otherwise raises `ValueError`.  Returns the raised message (if any)
together with the state after the call. -/
def register_callback (s : TouchButtonState) (event_name : String)
    (callback : Callback) : Option String × TouchButtonState :=
  if event_name = "clk" then (none, { s with cb_clk := some callback })
  else if event_name = "dclk" then (none, { s with cb_dclk := some callback })
  else if event_name = "lpr" then (none, { s with cb_lpr := some callback })
  else if event_name = "lprhld" then
    (none, { s with cb_lprhld := some callback })
  else
    (some ("Unknown event: " ++ event_name ++
           ". Valid: clk, dclk, lpr, lprhld"), s)

/-- Method `calibrate` (lines 44-51): append `CALIBRATION_SAMPLES` raw readings,
then `self._baseline = sum(values) / len(values)` — Python true division,
producing a (possibly non-integral) float.  The raw readings are supplied as
a stream indexed by sample number. -/
def calibrate (s : TouchButtonState) (raw : ℕ → ℤ) : TouchButtonState :=
  let values : List ℤ := (List.range CALIBRATION_SAMPLES).map raw
  { s with baseline :=
      ((values.map (fun v => (v : ℚ))).sum) / (values.length : ℚ) }

/-- Method `is_touching` (lines 83-93): `smoothed > baseline + threshold`.
The debug print is an observational side effect only. -/
def is_touching (s : TouchButtonState) : Bool :=
  decide (s.smoothed > s.baseline + (s.touch_threshold : ℚ))

/-- EMA stage of a conditioning tick (lines 101-107): cold start when
`smoothed == 0`, otherwise `int(alpha*raw + (1-alpha)*smoothed)`. -/
def emaStep (alpha : ℚ) (smoothed : ℚ) (raw : ℤ) : ℚ :=
  if smoothed = 0 then (raw : ℚ)
  else ((pyInt (alpha * (raw : ℚ) + (1 - alpha) * smoothed)) : ℚ)

/-- Sustained-touch rebase stage (lines 109-118).  `touchStart` is the
loop-local `touch_start_time` (`none` = Python `None`); `now` is the value
of `time.monotonic()` on this tick.  Returns the updated state and timer. -/
def rebaseStep (s : TouchButtonState) (touchStart : Option ℚ) (now : ℚ) :
    TouchButtonState × Option ℚ :=
  if is_touching s then
    match touchStart with
    | none => (s, some now)
    | some t0 =>
        if now - t0 > s.long_touch_baseline_timeout then
          ({ s with baseline := s.smoothed }, none)
        else (s, some t0)
  else (s, none)

/-- Baseline adaptation stage (lines 120-128): cold start when
`baseline == 0`, immediate follow when `smoothed < baseline`, otherwise the
one-sided EMA `(1 - f)*baseline + f*smoothed` (note: no `int()` here). -/
def baselineStep (s : TouchButtonState) : TouchButtonState :=
  if s.baseline = 0 then { s with baseline := ((pyInt s.smoothed) : ℚ) }
  else if s.smoothed < s.baseline then { s with baseline := s.smoothed }
  else { s with baseline :=
      (1 - s.baseline_approx_factor) * s.baseline +
      s.baseline_approx_factor * s.smoothed }

/-- One iteration of the `_update_touch_values` loop (lines 98-130): EMA
update, sustained-touch rebase, baseline adaptation. -/
def updateTick (s : TouchButtonState) (touchStart : Option ℚ) (raw : ℤ)
    (now : ℚ) : TouchButtonState × Option ℚ :=
  let s1 := { s with smoothed := emaStep s.ema_alpha s.smoothed raw }
  let r := rebaseStep s1 touchStart now
  (baselineStep r.1, r.2)

/-- The four gesture events the classifier can emit. -/
inductive GestureEvent
  | clk
  | dclk
  | lpr
  | lprhld
deriving DecidableEq, Repr

/-- The inner `while self.is_touching():` loop of `_handle_touch`
(lines 142-158).  Each loop iteration observes the current `is_touching()`
result together with the `time.monotonic()` value read for `elapsed_time`;
these observations are supplied as a trace (one pair per iteration; an
exhausted trace ends the loop, i.e. models the touch having been released
from then on).  `start` is `start_time`, `fired` is `long_press_fired`.
Returns the events emitted by `_safe_callback` in order, and the final
value of `long_press_fired`. -/
def touchLoop (timeout : ℚ) (start : ℚ) (fired : Bool) :
    List (Bool × ℚ) → List GestureEvent × Bool
  | [] => ([], fired)
  | (touching, now) :: rest =>
      if touching then
        if now - start > timeout then
          if fired then
            (GestureEvent.lprhld :: (touchLoop timeout start true rest).1,
             (touchLoop timeout start true rest).2)
          else
            (GestureEvent.lpr :: GestureEvent.lprhld ::
               (touchLoop timeout start true rest).1,
             (touchLoop timeout start true rest).2)
        else touchLoop timeout start fired rest
      else ([], fired)

/-- The `while time.monotonic() - start_time < self._double_click_delay:`
loop of `_handle_clicks` (lines 174-180), returning the final
`click_count`.  Each iteration observes the `time.monotonic()` value tested
by the loop condition and then the `is_touching()` result; observing a
touch inside the window sets `click_count = 2` and breaks (the inner
wait-for-release loop emits nothing). -/
def clicksCount (delay : ℚ) (start : ℚ) : List (ℚ × Bool) → ℕ
  | [] => 1
  | (now, touching) :: rest =>
      if now - start < delay then
        if touching then 2 else clicksCount delay start rest
      else 1

/-- Method `_handle_clicks` (lines 165-189): with double click disabled, emit
`clk` immediately; otherwise poll the double-click window and emit `clk`
or `dclk` by the final `click_count`. -/
def handleClicks (enableDoubleClick : Bool) (delay : ℚ) (start : ℚ)
    (clickTrace : List (ℚ × Bool)) : List GestureEvent :=
  if enableDoubleClick = false then [GestureEvent.clk]
  else if clicksCount delay start clickTrace = 1 then [GestureEvent.clk]
  else [GestureEvent.dclk]

/-- One gesture of `_handle_touch` (lines 139-163): from the tick where
`is_touching()` first became true (`start_time = now`), run the touching
loop; if `long_press_fired` the gesture is over (`continue`), otherwise
run `_handle_clicks`.  Returns all events emitted for this gesture. -/
def handleGesture (timeout : ℚ) (enableDoubleClick : Bool) (delay : ℚ)
    (start : ℚ) (touchTrace : List (Bool × ℚ))
    (clickTrace : List (ℚ × Bool)) : List GestureEvent :=
  let r := touchLoop timeout start false touchTrace
  if r.2 then r.1
  else r.1 ++ handleClicks enableDoubleClick delay start clickTrace

/-- The unguarded body of `_safe_callback` (lines 193-195): look the
callback up and invoke it; the result is the exception the `try` block
raises, if any. -/
def invokeCallback (s : TouchButtonState) (event_name : String) :
    Except String Unit :=
  match lookupCallback s event_name with
  | none => Except.ok ()
  | some cb => cb ()

/-- Method `_safe_callback` (lines 191-197): the `try/except` wrapper.  It always
returns normally; the returned list is the lines it printed (one error
line naming the event when the callback raised, nothing otherwise). -/
def safe_callback (s : TouchButtonState) (event_name : String) :
    List String :=
  match invokeCallback s event_name with
  | Except.ok _ => []
  | Except.error e =>
      ["Error in " ++ event_name ++ " callback: " ++ e]

/-- A sequence of `_safe_callback` dispatches, as the control loop performs
them one after another: each event is dispatched regardless of whether
earlier callbacks raised. -/
def dispatchSeq (s : TouchButtonState) : List String → List (List String)
  | [] => []
  | e :: rest => safe_callback s e :: dispatchSeq s rest

/-- A callback that returns normally. -/
def cbOk : Callback := fun _ => Except.ok ()

/-- A callback that raises. -/
def cbFail : Callback := fun _ => Except.error "boom"

/-- A concrete calibration sample stream: 0, 0, 0, 0, 1, 0, 0, ... -/
def exStream : ℕ → ℤ := fun i => if i = 4 then 1 else 0

/-! ### Helper lemmas -/

theorem pyInt_intCast (n : ℤ) : pyInt (n : ℚ) = n := by
  unfold pyInt
  split
  · exact Int.floor_intCast n
  · exact Int.ceil_intCast n

theorem pyInt_of_nonneg (q : ℚ) (h : 0 ≤ q) : pyInt q = ⌊q⌋ := by
  unfold pyInt
  exact if_pos h

theorem updateTick_fst (s : TouchButtonState) (touchStart : Option ℚ)
    (raw : ℤ) (now : ℚ) :
    (updateTick s touchStart raw now).1
      = baselineStep
          (rebaseStep { s with smoothed := emaStep s.ema_alpha s.smoothed raw }
            touchStart now).1 := rfl

theorem baselineStep_smoothed (s : TouchButtonState) :
    (baselineStep s).smoothed = s.smoothed := by
  unfold baselineStep
  split
  · rfl
  · split <;> rfl

theorem rebaseStep_fst_cases (s : TouchButtonState) (touchStart : Option ℚ)
    (now : ℚ) :
    (rebaseStep s touchStart now).1 = s ∨
    (rebaseStep s touchStart now).1 = { s with baseline := s.smoothed } := by
  unfold rebaseStep
  split
  · split
    · exact Or.inl rfl
    · split
      · exact Or.inr rfl
      · exact Or.inl rfl
  · exact Or.inl rfl

theorem rebaseStep_no_fire (s : TouchButtonState) (touchStart : Option ℚ)
    (now : ℚ)
    (h : ∀ t0, touchStart = some t0 → is_touching s = true →
        now - t0 ≤ s.long_touch_baseline_timeout) :
    (rebaseStep s touchStart now).1 = s := by
  unfold rebaseStep
  split
  · case isTrue ht =>
      split
      · rfl
      · case h_2 t0 =>
          rw [if_neg (not_lt.mpr (h t0 rfl ht))]
  · rfl

theorem updateTick_smoothed (s : TouchButtonState) (touchStart : Option ℚ)
    (raw : ℤ) (now : ℚ) :
    ((updateTick s touchStart raw now).1).smoothed
      = emaStep s.ema_alpha s.smoothed raw := by
  rw [updateTick_fst, baselineStep_smoothed]
  rcases rebaseStep_fst_cases
      { s with smoothed := emaStep s.ema_alpha s.smoothed raw } touchStart now
    with h | h <;> rw [h]

theorem baselineStep_of_lt (s : TouchButtonState) (hb : s.baseline ≠ 0)
    (h : s.smoothed < s.baseline) :
    (baselineStep s).baseline = s.smoothed := by
  unfold baselineStep
  rw [if_neg hb, if_pos h]

theorem baselineStep_of_eq (s : TouchButtonState)
    (h : s.baseline = s.smoothed) :
    (baselineStep s).baseline = s.smoothed := by
  unfold baselineStep
  by_cases h0 : s.baseline = 0
  · rw [if_pos h0]
    show (pyInt s.smoothed : ℚ) = s.smoothed
    rw [← h, h0]
    simp [pyInt]
  · rw [if_neg h0, if_neg (by rw [h]; exact lt_irrefl _)]
    show (1 - s.baseline_approx_factor) * s.baseline +
        s.baseline_approx_factor * s.smoothed = s.smoothed
    rw [h]
    ring

/-! ### Claim theorems -/

/-- Claim C5: the touch detector is a pure strict-inequality comparison:
`touching` holds iff `smoothed - baseline > touch_threshold`; in particular
it is false at `smoothed - baseline == touch_threshold` and true at
`smoothed - baseline == touch_threshold + 1`. -/
theorem claim_C5 (s : TouchButtonState) :
    (is_touching s = true ↔
        s.smoothed - s.baseline > (s.touch_threshold : ℚ)) ∧
    (s.smoothed - s.baseline = (s.touch_threshold : ℚ) →
        is_touching s = false) ∧
    (s.smoothed - s.baseline = (s.touch_threshold : ℚ) + 1 →
        is_touching s = true) := by
  refine ⟨?_, ?_, ?_⟩
  · rw [is_touching, decide_eq_true_eq]
    constructor <;> intro h <;> linarith
  · intro h
    rw [is_touching, decide_eq_false_iff_not]
    intro hc
    linarith
  · intro h
    rw [is_touching, decide_eq_true_eq]
    linarith

/-- Witness for C5 at a concrete boundary: with the default threshold 500
and baseline 0, a smoothed value of 501 is touching and 500 is not. -/
theorem claim_C5_witness :
    is_touching { initState with smoothed := 501 } = true ∧
    is_touching { initState with smoothed := 500 } = false :=
  ⟨(claim_C5 { initState with smoothed := 501 }).2.2 (by norm_num [initState]),
   (claim_C5 { initState with smoothed := 500 }).2.1 (by norm_num [initState])⟩

/-- Claim C6: on a conditioning tick where, after the EMA update, the
baseline is nonzero and the smoothed value is below the baseline, the new
baseline equals the smoothed value exactly (immediate assignment). -/
theorem claim_C6 (s : TouchButtonState) (touchStart : Option ℚ) (raw : ℤ)
    (now : ℚ)
    (hb : s.baseline ≠ 0)
    (hlt : emaStep s.ema_alpha s.smoothed raw < s.baseline) :
    ((updateTick s touchStart raw now).1).baseline
      = emaStep s.ema_alpha s.smoothed raw := by
  rw [updateTick_fst]
  rcases rebaseStep_fst_cases
      { s with smoothed := emaStep s.ema_alpha s.smoothed raw } touchStart now
    with h | h <;> rw [h]
  · exact baselineStep_of_lt _ hb hlt
  · exact baselineStep_of_eq _ rfl

/-- Witness for C6: baseline 90, raw sample 0 gives an EMA value of 70,
and the tick drops the baseline to exactly 70. -/
theorem claim_C6_witness :
    ((updateTick { initState with smoothed := 100, baseline := 90 }
        none 0 0).1).baseline
      = emaStep (3/10) 100 0 ∧ emaStep (3/10) 100 0 = 70 := by
  have h := claim_C6 { initState with smoothed := 100, baseline := 90 }
    none 0 0 (by norm_num [initState])
    (by norm_num [initState, emaStep, pyInt])
  exact ⟨h, by norm_num [emaStep, pyInt]⟩

/-- Claim C10: registering a callback under an unknown event name raises
and leaves the whole instance state (callback table, configuration and
conditioning fields) exactly as it was. -/
theorem claim_C10 (s : TouchButtonState) (event_name : String)
    (callback : Callback) (h : event_name ∉ callbackKeys) :
    (register_callback s event_name callback).1 ≠ none ∧
    (register_callback s event_name callback).2 = s := by
  simp only [callbackKeys, List.mem_cons, List.not_mem_nil, or_false,
    not_or] at h
  obtain ⟨h1, h2, h3, h4⟩ := h
  rw [register_callback, if_neg h1, if_neg h2, if_neg h3, if_neg h4]
  exact ⟨by simp, rfl⟩

/-- Witness for C10: registering under `"click"` (not a key of the
callback dict) raises and returns the state unchanged. -/
theorem claim_C10_witness :
    (register_callback initState "click" cbOk).1 ≠ none ∧
    (register_callback initState "click" cbOk).2 = initState :=
  claim_C10 initState "click" cbOk (by decide)

/-- Counterexample to C1 as stated: the event name `"click"` belongs to
the set named by the claim, yet `register_callback` raises on it (the
dict keys are the abbreviations `clk`, `dclk`, `lpr`, `lprhld`). -/
theorem claim_C1_cex :
    (register_callback initState "click" cbOk).1
      = some "Unknown event: click. Valid: clk, dclk, lpr, lprhld" ∧
    (register_callback initState "click" cbOk).2 = initState := by
  constructor <;> rfl

/-- Claim C1 (amended): the fixed set of valid event names is
`{clk, dclk, lpr, lprhld}`; for a name in this set registration succeeds
and overwrites any previously registered callback for that event, and for
a name outside this set it fails synchronously. -/
theorem claim_C1 (s : TouchButtonState) (event_name : String)
    (callback : Callback) :
    (event_name ∈ callbackKeys →
        (register_callback s event_name callback).1 = none ∧
        lookupCallback (register_callback s event_name callback).2 event_name
          = some callback) ∧
    (event_name ∉ callbackKeys →
        (register_callback s event_name callback).1 ≠ none) := by
  constructor
  · intro h
    simp only [callbackKeys, List.mem_cons, List.not_mem_nil, or_false] at h
    rcases h with h | h | h | h <;> subst h <;>
      simp [register_callback, lookupCallback]
  · intro h
    simp only [callbackKeys, List.mem_cons, List.not_mem_nil, or_false,
      not_or] at h
    obtain ⟨h1, h2, h3, h4⟩ := h
    rw [register_callback, if_neg h1, if_neg h2, if_neg h3, if_neg h4]
    simp

/-- Witness for C1: registering `"dclk"` on a state that already has a
`"dclk"` callback succeeds and the table afterwards holds the new one. -/
theorem claim_C1_witness :
    (register_callback { initState with cb_dclk := some cbFail }
        "dclk" cbOk).1 = none ∧
    lookupCallback (register_callback { initState with cb_dclk := some cbFail }
        "dclk" cbOk).2 "dclk" = some cbOk :=
  (claim_C1 { initState with cb_dclk := some cbFail } "dclk" cbOk).1
    (by decide)

/-- Counterexample to C2 as stated: with `alpha = 3/10`, `smoothed = 1`
and `raw = 3` the blend is `1.6`; the code stores `int(1.6) = 1`, while
`round(1.6) = 2` as the claim demands. -/
theorem claim_C2_cex :
    ((updateTick { initState with smoothed := 1 } none 3 0).1).smoothed = 1 ∧
    round ((3/10 : ℚ) * 3 + (1 - 3/10) * 1) = 2 := by
  constructor
  · rw [updateTick_smoothed]
    norm_num [initState, emaStep, pyInt]
  · rw [round_eq]
    norm_num

/-- Claim C2 (amended): on a conditioning tick, if the current smoothed
value is 0 the new smoothed value is the raw sample exactly; otherwise it
is `int(alpha*raw + (1-alpha)*smoothed)`, Python truncation toward zero —
which equals the floor of the blend whenever the blend is nonnegative
(not round-to-nearest). -/
theorem claim_C2 (s : TouchButtonState) (touchStart : Option ℚ) (raw : ℤ)
    (now : ℚ) :
    (s.smoothed = 0 →
        ((updateTick s touchStart raw now).1).smoothed = (raw : ℚ)) ∧
    (s.smoothed ≠ 0 →
        ((updateTick s touchStart raw now).1).smoothed
          = ((pyInt (s.ema_alpha * (raw : ℚ) + (1 - s.ema_alpha) * s.smoothed)) : ℚ)) ∧
    (∀ q : ℚ, 0 ≤ q → pyInt q = ⌊q⌋) := by
  refine ⟨?_, ?_, fun q hq => pyInt_of_nonneg q hq⟩
  · intro h
    rw [updateTick_smoothed, emaStep, if_pos h]
  · intro h
    rw [updateTick_smoothed, emaStep, if_neg h]

/-- Witness for C2: a cold-start tick stores the raw sample exactly, and
a warm tick stores the truncated blend (raw 10 over smoothed 2 gives
`int(0.3*10 + 0.7*2) = int(4.4) = 4`). -/
theorem claim_C2_witness :
    ((updateTick initState none 10 0).1).smoothed = ((10 : ℤ) : ℚ) ∧
    ((updateTick { initState with smoothed := 2 } none 10 0).1).smoothed
      = ((pyInt ((3/10 : ℚ) * ((10 : ℤ) : ℚ) + (1 - 3/10) * 2)) : ℚ) ∧
    pyInt ((22 : ℚ) / 5) = ⌊(22 : ℚ) / 5⌋ := by
  refine ⟨(claim_C2 initState none 10 0).1 rfl, ?_, ?_⟩
  · exact (claim_C2 { initState with smoothed := 2 } none 10 0).2.1
      (by norm_num [initState])
  · exact (claim_C2 initState none 10 0).2.2 ((22 : ℚ) / 5) (by norm_num)

/-- Counterexample to C3 as stated: baseline 1000, smoothed 2000 (after a
cold-start EMA on raw 2000), factor `0.0005`.  The claim predicts
`baseline + floor(0.0005 * 1000) = 1000`; the code computes the unfloored
blend `1000.5`. -/
theorem claim_C3_cex :
    ((updateTick { initState with baseline := 1000 } none 2000 0).1).baseline
      = 2001/2 ∧
    (1000 : ℚ) + ((⌊(5/10000 : ℚ) * (2000 - 1000)⌋ : ℤ) : ℚ) = 1000 := by
  constructor
  · rw [updateTick_fst,
      rebaseStep_no_fire _ _ _ (by intro t0 ht hT; simp at ht)]
    norm_num [baselineStep, initState, emaStep]
  · norm_num

/-- Claim C3 (amended): on a conditioning tick where, after the EMA
update, the baseline is nonzero, the smoothed value is at least the
baseline, and the sustained-touch rebase does not fire, the new baseline
is the exact (unfloored) blend
`(1-factor)*baseline + factor*smoothed`, and for any factor in `[0,1]`
this lies between the old baseline and the smoothed value inclusive. -/
theorem claim_C3 (s : TouchButtonState) (touchStart : Option ℚ) (raw : ℤ)
    (now : ℚ)
    (hb : s.baseline ≠ 0)
    (hge : s.baseline ≤ emaStep s.ema_alpha s.smoothed raw)
    (hnr : ∀ t0, touchStart = some t0 →
        is_touching { s with smoothed := emaStep s.ema_alpha s.smoothed raw }
          = true →
        now - t0 ≤ s.long_touch_baseline_timeout) :
    ((updateTick s touchStart raw now).1).baseline
      = (1 - s.baseline_approx_factor) * s.baseline
        + s.baseline_approx_factor * emaStep s.ema_alpha s.smoothed raw ∧
    (0 ≤ s.baseline_approx_factor → s.baseline_approx_factor ≤ 1 →
        s.baseline ≤ ((updateTick s touchStart raw now).1).baseline ∧
        ((updateTick s touchStart raw now).1).baseline
          ≤ emaStep s.ema_alpha s.smoothed raw) := by
  have hfix : (updateTick s touchStart raw now).1
      = baselineStep { s with smoothed := emaStep s.ema_alpha s.smoothed raw } := by
    rw [updateTick_fst, rebaseStep_no_fire _ _ _ hnr]
  have hmain : ((updateTick s touchStart raw now).1).baseline
      = (1 - s.baseline_approx_factor) * s.baseline
        + s.baseline_approx_factor * emaStep s.ema_alpha s.smoothed raw := by
    rw [hfix, baselineStep, if_neg hb, if_neg (not_lt.mpr hge)]
  refine ⟨hmain, fun hf0 hf1 => ?_⟩
  rw [hmain]
  set f := s.baseline_approx_factor
  set b := s.baseline
  set m := emaStep s.ema_alpha s.smoothed raw
  have h1 : 0 ≤ f * (m - b) := mul_nonneg hf0 (by linarith)
  have h2 : 0 ≤ (1 - f) * (m - b) := mul_nonneg (by linarith) (by linarith)
  have e1 : (1 - f) * b + f * m = b + f * (m - b) := by ring
  have e2 : (1 - f) * b + f * m = m - (1 - f) * (m - b) := by ring
  constructor
  · rw [e1]; linarith
  · rw [e2]; linarith

/-- Witness for C3: the tick of the C3 counterexample input, evaluated
through the amended statement, yields baseline `1000.5`, between 1000 and
2000. -/
theorem claim_C3_witness :
    ((updateTick { initState with baseline := 1000 } none 2000 0).1).baseline
      = 2001/2 ∧
    (1000 : ℚ) ≤ 2001/2 ∧ (2001 : ℚ)/2 ≤ 2000 := by
  have h := claim_C3 { initState with baseline := 1000 } none 2000 0
    (by norm_num [initState])
    (by norm_num [initState, emaStep])
    (fun t0 ht => by simp at ht)
  refine ⟨?_, by norm_num, by norm_num⟩
  rw [h.1]
  norm_num [initState, emaStep]

/-- Counterexample to C9 as stated: after `calibrate` on the sample
stream `0,0,0,0,1` the baseline is `1/5`, which is not an integer
(Python's `sum(values)/len(values)` is true division). -/
theorem claim_C9_cex :
    (calibrate initState exStream).baseline = 1/5 ∧
    ¬ ∃ n : ℤ, (calibrate initState exStream).baseline = (n : ℚ) := by
  have hb : (calibrate initState exStream).baseline = 1/5 := by
    norm_num [calibrate, CALIBRATION_SAMPLES, exStream, List.range_succ]
  refine ⟨hb, ?_⟩
  rintro ⟨n, hn⟩
  rw [hb] at hn
  have h1 : (1 : ℚ) = 5 * (n : ℚ) := by linarith [hn]
  have h2 : (1 : ℤ) = 5 * n := by exact_mod_cast h1
  omega

/-- Claim C9 (amended): the smoothed value is an integer after every
conditioning tick (and `calibrate` leaves it untouched), but the baseline
may be a non-integral float after `calibrate` or after the upward
baseline blend. -/
theorem claim_C9 (s : TouchButtonState) (touchStart : Option ℚ) (raw : ℤ)
    (now : ℚ) (stream : ℕ → ℤ) :
    (∃ n : ℤ, ((updateTick s touchStart raw now).1).smoothed = (n : ℚ)) ∧
    (calibrate s stream).smoothed = s.smoothed := by
  constructor
  · rw [updateTick_smoothed, emaStep]
    split
    · exact ⟨raw, rfl⟩
    · exact ⟨_, rfl⟩
  · rfl

/-- Claim C7: `calibrate()` reads exactly `CALIBRATION_SAMPLES = 5` raw
samples (one per `CALIBRATION_DELAY = 50 ms` interval), sets the baseline
to their arithmetic mean (their sum divided by 5), and modifies no other
field of the instance state. -/
theorem claim_C7 (s : TouchButtonState) (raw raw2 : ℕ → ℤ) :
    CALIBRATION_SAMPLES = 5 ∧
    CALIBRATION_DELAY = 1/20 ∧
    (calibrate s raw).baseline
      = (((raw 0 + raw 1 + raw 2 + raw 3 + raw 4 : ℤ)) : ℚ) / 5 ∧
    ((∀ i, i < CALIBRATION_SAMPLES → raw i = raw2 i) →
        calibrate s raw = calibrate s raw2) ∧
    (calibrate s raw).smoothed = s.smoothed ∧
    (calibrate s raw).ema_alpha = s.ema_alpha ∧
    (calibrate s raw).baseline_approx_factor = s.baseline_approx_factor ∧
    (calibrate s raw).touch_threshold = s.touch_threshold ∧
    (calibrate s raw).double_click_delay = s.double_click_delay ∧
    (calibrate s raw).long_press_timeout = s.long_press_timeout ∧
    (calibrate s raw).long_press_hold_interval = s.long_press_hold_interval ∧
    (calibrate s raw).long_touch_baseline_timeout
      = s.long_touch_baseline_timeout ∧
    (calibrate s raw).cb_clk = s.cb_clk ∧
    (calibrate s raw).cb_dclk = s.cb_dclk ∧
    (calibrate s raw).cb_lpr = s.cb_lpr ∧
    (calibrate s raw).cb_lprhld = s.cb_lprhld ∧
    (calibrate s raw).enable_double_click = s.enable_double_click ∧
    (calibrate s raw).dbg = s.dbg := by
  refine ⟨rfl, rfl, ?_, ?_, rfl, rfl, rfl, rfl, rfl, rfl, rfl, rfl, rfl,
    rfl, rfl, rfl, rfl, rfl⟩
  · simp only [calibrate, CALIBRATION_SAMPLES]
    norm_num [List.range_succ]
    ring
  · intro h
    have hm : (List.range CALIBRATION_SAMPLES).map raw
        = (List.range CALIBRATION_SAMPLES).map raw2 :=
      List.map_congr_left (fun i hi => h i (List.mem_range.mp hi))
    simp only [calibrate]
    rw [hm]

/-- Witness for C7: two streams agreeing on samples 0-4 calibrate to the
same state, and the mean of 0,1,2,3,4 is 2. -/
theorem claim_C7_witness :
    calibrate initState (fun i => (i : ℤ))
      = calibrate initState (fun i => if i < 5 then (i : ℤ) else 99) ∧
    (calibrate initState (fun i => (i : ℤ))).baseline = 2 := by
  have h := claim_C7 initState (fun i => (i : ℤ))
    (fun i => if i < 5 then (i : ℤ) else 99)
  refine ⟨h.2.2.2.1 ?_, ?_⟩
  · intro i hi
    rw [CALIBRATION_SAMPLES] at hi
    simp [hi]
  · rw [h.2.2.1]
    norm_num

/-- Claim C8: every error raised inside a user callback is caught at the
dispatch boundary: `_safe_callback` always returns, on failure it prints
one line naming the offending event, and a sequence of dispatches handles
every event (each dispatch is independent of earlier failures). -/
theorem claim_C8 (s : TouchButtonState) (event_name : String) :
    (invokeCallback s event_name = Except.ok () →
        safe_callback s event_name = []) ∧
    (∀ e, invokeCallback s event_name = Except.error e →
        safe_callback s event_name
          = ["Error in " ++ event_name ++ " callback: " ++ e]) ∧
    (∀ events : List String,
        (dispatchSeq s events).length = events.length ∧
        dispatchSeq s events = events.map (safe_callback s)) := by
  refine ⟨?_, ?_, ?_⟩
  · intro h
    rw [safe_callback, h]
  · intro e h
    rw [safe_callback, h]
  · intro events
    induction events with
    | nil => exact ⟨rfl, rfl⟩
    | cons a t ih =>
        exact ⟨by simp [dispatchSeq, ih.1], by simp [dispatchSeq, ih.2]⟩

/-- Witness for C8: a raising `clk` callback is caught and logged with
the event name, and dispatching `clk` twice logs twice — the second
dispatch still fires. -/
theorem claim_C8_witness :
    safe_callback { initState with cb_clk := some cbFail } "clk"
      = ["Error in clk callback: boom"] ∧
    dispatchSeq { initState with cb_clk := some cbFail } ["clk", "clk"]
      = [["Error in clk callback: boom"], ["Error in clk callback: boom"]] := by
  have h := claim_C8 { initState with cb_clk := some cbFail } "clk"
  have h1 : invokeCallback { initState with cb_clk := some cbFail } "clk"
      = Except.error "boom" := rfl
  have h2 := h.2.1 "boom" h1
  refine ⟨h2, ?_⟩
  rw [(h.2.2 ["clk", "clk"]).2]
  simp [h2]

/-! ### Lemmas on the gesture loops -/

theorem touchLoop_emit_false (t s0 : ℚ) (touching : Bool) (now : ℚ)
    (rest : List (Bool × ℚ)) (h1 : touching = true) (h2 : now - s0 > t) :
    touchLoop t s0 false ((touching, now) :: rest)
      = (GestureEvent.lpr :: GestureEvent.lprhld ::
           (touchLoop t s0 true rest).1,
         (touchLoop t s0 true rest).2) := by
  rw [touchLoop, if_pos h1, if_pos h2]
  rfl

theorem touchLoop_emit_true (t s0 : ℚ) (touching : Bool) (now : ℚ)
    (rest : List (Bool × ℚ)) (h1 : touching = true) (h2 : now - s0 > t) :
    touchLoop t s0 true ((touching, now) :: rest)
      = (GestureEvent.lprhld :: (touchLoop t s0 true rest).1,
         (touchLoop t s0 true rest).2) := by
  rw [touchLoop, if_pos h1, if_pos h2]
  rfl

theorem touchLoop_skip (t s0 : ℚ) (fired touching : Bool) (now : ℚ)
    (rest : List (Bool × ℚ)) (h1 : touching = true)
    (h2 : ¬ now - s0 > t) :
    touchLoop t s0 fired ((touching, now) :: rest)
      = touchLoop t s0 fired rest := by
  rw [touchLoop, if_pos h1, if_neg h2]

theorem touchLoop_notouch (t s0 : ℚ) (fired touching : Bool) (now : ℚ)
    (rest : List (Bool × ℚ)) (h1 : ¬ touching = true) :
    touchLoop t s0 fired ((touching, now) :: rest) = ([], fired) := by
  rw [touchLoop, if_neg h1]

theorem touchLoop_snd_true (t s0 : ℚ) (tr : List (Bool × ℚ)) :
    (touchLoop t s0 true tr).2 = true := by
  induction tr with
  | nil => rfl
  | cons p rest ih =>
      obtain ⟨touching, now⟩ := p
      by_cases h1 : touching = true
      · by_cases h2 : now - s0 > t
        · rw [touchLoop_emit_true t s0 touching now rest h1 h2]
          exact ih
        · rw [touchLoop_skip t s0 true touching now rest h1 h2]
          exact ih
      · rw [touchLoop_notouch t s0 true touching now rest h1]

theorem touchLoop_true_no_lpr (t s0 : ℚ) (tr : List (Bool × ℚ)) :
    GestureEvent.lpr ∉ (touchLoop t s0 true tr).1 := by
  induction tr with
  | nil => simp [touchLoop]
  | cons p rest ih =>
      obtain ⟨touching, now⟩ := p
      by_cases h1 : touching = true
      · by_cases h2 : now - s0 > t
        · rw [touchLoop_emit_true t s0 touching now rest h1 h2]
          simp only [List.mem_cons]
          rintro (h | h)
          · exact GestureEvent.noConfusion h
          · exact ih h
        · rw [touchLoop_skip t s0 true touching now rest h1 h2]
          exact ih
      · rw [touchLoop_notouch t s0 true touching now rest h1]
        simp

theorem touchLoop_mem (t s0 : ℚ) (tr : List (Bool × ℚ)) :
    ∀ fired, ∀ e ∈ (touchLoop t s0 fired tr).1,
      e = GestureEvent.lpr ∨ e = GestureEvent.lprhld := by
  induction tr with
  | nil => intro fired e he; simp [touchLoop] at he
  | cons p rest ih =>
      obtain ⟨touching, now⟩ := p
      intro fired e he
      by_cases h1 : touching = true
      · by_cases h2 : now - s0 > t
        · cases fired with
          | false =>
              rw [touchLoop_emit_false t s0 touching now rest h1 h2] at he
              simp only [List.mem_cons] at he
              rcases he with h | h | h
              · exact Or.inl h
              · exact Or.inr h
              · exact ih true e h
          | true =>
              rw [touchLoop_emit_true t s0 touching now rest h1 h2] at he
              simp only [List.mem_cons] at he
              rcases he with h | h
              · exact Or.inr h
              · exact ih true e h
        · rw [touchLoop_skip t s0 fired touching now rest h1 h2] at he
          exact ih fired e he
      · rw [touchLoop_notouch t s0 fired touching now rest h1] at he
        simp at he

theorem touchLoop_snd_false_nil (t s0 : ℚ) (tr : List (Bool × ℚ)) :
    ∀ fired, (touchLoop t s0 fired tr).2 = false →
      (touchLoop t s0 fired tr).1 = [] := by
  induction tr with
  | nil => intro fired _; rfl
  | cons p rest ih =>
      obtain ⟨touching, now⟩ := p
      intro fired h
      by_cases h1 : touching = true
      · by_cases h2 : now - s0 > t
        · cases fired with
          | false =>
              rw [touchLoop_emit_false t s0 touching now rest h1 h2] at h
              exact absurd (h.symm.trans (touchLoop_snd_true t s0 rest))
                (by simp)
          | true =>
              rw [touchLoop_emit_true t s0 touching now rest h1 h2] at h
              exact absurd (h.symm.trans (touchLoop_snd_true t s0 rest))
                (by simp)
        · rw [touchLoop_skip t s0 fired touching now rest h1 h2] at h ⊢
          exact ih fired h
      · rw [touchLoop_notouch t s0 fired touching now rest h1]

theorem touchLoop_count_lpr (t s0 : ℚ) (tr : List (Bool × ℚ)) :
    ∀ fired, ((touchLoop t s0 fired tr).1).count GestureEvent.lpr ≤ 1 := by
  induction tr with
  | nil => intro fired; simp [touchLoop]
  | cons p rest ih =>
      obtain ⟨touching, now⟩ := p
      intro fired
      have h0 : ((touchLoop t s0 true rest).1).count GestureEvent.lpr = 0 :=
        List.count_eq_zero.mpr (touchLoop_true_no_lpr t s0 rest)
      by_cases h1 : touching = true
      · by_cases h2 : now - s0 > t
        · cases fired with
          | false =>
              rw [touchLoop_emit_false t s0 touching now rest h1 h2]
              simp [List.count_cons, h0]
          | true =>
              rw [touchLoop_emit_true t s0 touching now rest h1 h2]
              simp [List.count_cons, h0]
        · rw [touchLoop_skip t s0 fired touching now rest h1 h2]
          exact ih fired
      · rw [touchLoop_notouch t s0 fired touching now rest h1]
        simp

theorem touchLoop_lpr_obs (t s0 : ℚ) (tr : List (Bool × ℚ)) :
    ∀ fired, GestureEvent.lpr ∈ (touchLoop t s0 fired tr).1 →
      ∃ p ∈ tr, p.1 = true ∧ p.2 - s0 > t := by
  induction tr with
  | nil => intro fired h; simp [touchLoop] at h
  | cons p rest ih =>
      obtain ⟨touching, now⟩ := p
      intro fired h
      by_cases h1 : touching = true
      · by_cases h2 : now - s0 > t
        · exact ⟨(touching, now), List.mem_cons_self _ _, h1, h2⟩
        · rw [touchLoop_skip t s0 fired touching now rest h1 h2] at h
          obtain ⟨q, hq, hq1, hq2⟩ := ih fired h
          exact ⟨q, List.mem_cons_of_mem _ hq, hq1, hq2⟩
      · rw [touchLoop_notouch t s0 fired touching now rest h1] at h
        simp at h

theorem touchLoop_adj (t s0 : ℚ) (tr : List (Bool × ℚ)) :
    ∀ fired i,
      ((touchLoop t s0 fired tr).1).get? i = some GestureEvent.lpr →
      ((touchLoop t s0 fired tr).1).get? (i + 1)
        = some GestureEvent.lprhld := by
  induction tr with
  | nil => intro fired i h; simp [touchLoop] at h
  | cons p rest ih =>
      obtain ⟨touching, now⟩ := p
      intro fired i h
      by_cases h1 : touching = true
      · by_cases h2 : now - s0 > t
        · cases fired with
          | false =>
              rw [touchLoop_emit_false t s0 touching now rest h1 h2] at h ⊢
              match i, h with
              | 0, _ => rfl
              | 1, h => exact absurd h (by simp)
              | n + 2, h =>
                  rw [show ((GestureEvent.lpr :: GestureEvent.lprhld ::
                        (touchLoop t s0 true rest).1,
                      (touchLoop t s0 true rest).2) :
                        List GestureEvent × Bool).1.get? (n + 2)
                      = ((touchLoop t s0 true rest).1).get? n from rfl] at h
                  exact absurd (List.get?_mem h)
                    (touchLoop_true_no_lpr t s0 rest)
          | true =>
              rw [touchLoop_emit_true t s0 touching now rest h1 h2] at h ⊢
              match i, h with
              | 0, h => exact absurd h (by simp)
              | n + 1, h =>
                  rw [show ((GestureEvent.lprhld ::
                        (touchLoop t s0 true rest).1,
                      (touchLoop t s0 true rest).2) :
                        List GestureEvent × Bool).1.get? (n + 1)
                      = ((touchLoop t s0 true rest).1).get? n from rfl] at h
                  exact absurd (List.get?_mem h)
                    (touchLoop_true_no_lpr t s0 rest)
        · rw [touchLoop_skip t s0 fired touching now rest h1 h2] at h ⊢
          exact ih fired i h
      · rw [touchLoop_notouch t s0 fired touching now rest h1] at h
        simp at h

theorem handleClicks_cases (e : Bool) (d s0 : ℚ) (tr : List (ℚ × Bool)) :
    handleClicks e d s0 tr = [GestureEvent.clk] ∨
    handleClicks e d s0 tr = [GestureEvent.dclk] := by
  rw [handleClicks]
  split
  · exact Or.inl rfl
  · split
    · exact Or.inl rfl
    · exact Or.inr rfl

theorem handleClicks_no_lpr (e : Bool) (d s0 : ℚ) (tr : List (ℚ × Bool)) :
    GestureEvent.lpr ∉ handleClicks e d s0 tr := by
  rcases handleClicks_cases e d s0 tr with h | h <;> rw [h] <;> simp

theorem handleGesture_eq (timeout : ℚ) (enableDC : Bool) (delay start : ℚ)
    (touchTrace : List (Bool × ℚ)) (clickTrace : List (ℚ × Bool)) :
    handleGesture timeout enableDC delay start touchTrace clickTrace
      = if (touchLoop timeout start false touchTrace).2 = true
        then (touchLoop timeout start false touchTrace).1
        else (touchLoop timeout start false touchTrace).1
          ++ handleClicks enableDC delay start clickTrace := rfl

/-- Claim C4: per gesture, `LongPress` is emitted at most once and only
when a touching observation strictly exceeds `long_press_timeout`
(release at exactly the timeout is not a long press), the first
`LongPressHold` immediately follows `LongPress`, and a gesture that
reached the long-press state produces no `Click` or `DoubleClick`. -/
theorem claim_C4 (timeout : ℚ) (enableDC : Bool) (delay start : ℚ)
    (touchTrace : List (Bool × ℚ)) (clickTrace : List (ℚ × Bool)) :
    (handleGesture timeout enableDC delay start touchTrace
        clickTrace).count GestureEvent.lpr ≤ 1 ∧
    (GestureEvent.lpr
        ∈ handleGesture timeout enableDC delay start touchTrace clickTrace →
      ∃ p ∈ touchTrace, p.1 = true ∧ p.2 - start > timeout) ∧
    (∀ i,
      (handleGesture timeout enableDC delay start touchTrace
          clickTrace).get? i = some GestureEvent.lpr →
      (handleGesture timeout enableDC delay start touchTrace
          clickTrace).get? (i + 1) = some GestureEvent.lprhld) ∧
    (GestureEvent.lpr
        ∈ handleGesture timeout enableDC delay start touchTrace clickTrace →
      GestureEvent.clk
        ∉ handleGesture timeout enableDC delay start touchTrace clickTrace ∧
      GestureEvent.dclk
        ∉ handleGesture timeout enableDC delay start touchTrace clickTrace)
    := by
  by_cases hf : (touchLoop timeout start false touchTrace).2 = true
  · rw [handleGesture_eq, if_pos hf]
    refine ⟨touchLoop_count_lpr timeout start touchTrace false,
      touchLoop_lpr_obs timeout start touchTrace false,
      touchLoop_adj timeout start touchTrace false, ?_⟩
    intro _
    constructor <;> intro hc <;>
      rcases touchLoop_mem timeout start touchTrace false _ hc with h | h <;>
      exact GestureEvent.noConfusion h
  · have hsnd : (touchLoop timeout start false touchTrace).2 = false := by
      cases h : (touchLoop timeout start false touchTrace).2
      · rfl
      · exact absurd h hf
    have hnil := touchLoop_snd_false_nil timeout start touchTrace false hsnd
    rw [handleGesture_eq, if_neg hf, hnil, List.nil_append]
    have hnolpr := handleClicks_no_lpr enableDC delay start clickTrace
    refine ⟨?_, ?_, ?_, ?_⟩
    · simp [List.count_eq_zero.mpr hnolpr]
    · intro h
      exact absurd h hnolpr
    · intro i h
      exact absurd (List.get?_mem h) hnolpr
    · intro h
      exact absurd h hnolpr

/-- Witness for C4: a touch observed at time 2 against timeout 1 emits
exactly `LongPress` then `LongPressHold`, and the gesture produces no
click events. -/
theorem claim_C4_witness :
    handleGesture 1 false (3/10) 0 [(true, 2), (false, 3)] []
      = [GestureEvent.lpr, GestureEvent.lprhld] ∧
    GestureEvent.clk
      ∉ handleGesture 1 false (3/10) 0 [(true, 2), (false, 3)] [] ∧
    GestureEvent.dclk
      ∉ handleGesture 1 false (3/10) 0 [(true, 2), (false, 3)] [] := by
  have hev : handleGesture 1 false (3/10) 0 [(true, 2), (false, 3)] []
      = [GestureEvent.lpr, GestureEvent.lprhld] := by
    rw [handleGesture_eq,
      touchLoop_emit_false 1 0 true 2 [(false, 3)] rfl (by norm_num),
      touchLoop_notouch 1 0 true false 3 [] (by simp)]
    simp
  have h := (claim_C4 1 false (3/10) 0 [(true, 2), (false, 3)] []).2.2.2
    (by rw [hev]; simp)
  exact ⟨hev, h⟩

end TouchButton
